import Mathlib

/-!
Shallow embedding of the credential vault and provider-dispatch gateway of
`src/src-tauri/src/secrets.rs`, with theorems checking the specification's
claims against it.

Modelling conventions:
* `HashMap<String, SecretData>` is modelled as an association list whose
  operations keep keys unique; `HashMap::remove` is modelled as erasing every
  entry with the key (identical on the unique-key states the operations
  produce).
* Wall-clock time (`SystemTime::now`) is passed in explicitly as a `Nat`
  argument `now`.
* `serde_json::Value` is modelled by the inductive `Json` with numbers as
  `Rat`; `Value::as_u64` succeeds exactly on integral values in `u64` range,
  and the Rust `as u32` cast truncates modulo `2 ^ 32`.
* The HTTP transport is a parameter `net : ProviderCall → Except String
  HttpResponse`: `Except.error` is a transport failure, and an `HttpResponse`
  carries the status plus the results of `.text()` and `.json()`.  Each
  adapter also returns the list of network calls it issued, so that theorems
  can speak about which calls (if any) were performed.
* Rust `String::contains` (case-sensitive substring search) is
  `strContains`.
-/

namespace LOS

/-- Record stored for each secret; mirrors `SecretData` in `secrets.rs`. -/
structure SecretData where
  value : String
  created_at : Nat
  last_accessed : Option Nat
  deriving Repr, DecidableEq

/-- The vault state: `HashMap<String, SecretData>` as an association list. -/
abbrev SecretsMap := List (String × SecretData)

/-- Association-list lookup (first entry with the key). -/
def alGet : SecretsMap → String → Option SecretData
  | [], _ => none
  | (k, d) :: t, name => if k == name then some d else alGet t name

/-- Association-list insert-or-overwrite, mirroring `HashMap::insert`. -/
def alInsert : SecretsMap → String → SecretData → SecretsMap
  | [], name, d => [(name, d)]
  | (k, e) :: t, name, d =>
    if k == name then (name, d) :: t else (k, e) :: alInsert t name d

/-- Association-list erase, mirroring `HashMap::remove` (keys are unique in
every reachable state, so erasing all occurrences is the same operation). -/
def alErase : SecretsMap → String → SecretsMap
  | [], _ => []
  | (k, e) :: t, name =>
    if k == name then alErase t name else (k, e) :: alErase t name

/-- A single-quote character, used to build the not-found message. -/
def sq : String := String.singleton (Char.ofNat 39)

/-- The `format!("Secret '{}' not found", name)` message of `secrets.rs`. -/
def notFoundMsg (name : String) : String :=
  "Secret " ++ sq ++ name ++ sq ++ " not found"

/-- `SecretsManager::store_secret`: insert/overwrite with `created_at = now`,
`last_accessed = None`; always `Ok`. -/
def store_secret (st : SecretsMap) (name value : String) (now : Nat) :
    SecretsMap × Except String Unit :=
  (alInsert st name { value := value, created_at := now, last_accessed := none },
   Except.ok ())

/-- `SecretsManager::get_secret`: on a hit, stamp `last_accessed = now` in
place and return a copy of the value; on a miss, fail with the not-found
message and leave the map unchanged. -/
def get_secret (st : SecretsMap) (name : String) (now : Nat) :
    SecretsMap × Except String String :=
  match alGet st name with
  | some d =>
    (alInsert st name { value := d.value, created_at := d.created_at, last_accessed := some now },
     Except.ok d.value)
  | none => (st, Except.error (notFoundMsg name))

/-- `SecretsManager::has_secret`. -/
def has_secret (st : SecretsMap) (name : String) : Bool :=
  (alGet st name).isSome

/-- `SecretsManager::list_secrets`. -/
def list_secrets (st : SecretsMap) : List String :=
  st.map Prod.fst

/-- `SecretsManager::remove_secret`: delete the record, or fail with the
not-found message (map untouched) when absent. -/
def remove_secret (st : SecretsMap) (name : String) :
    SecretsMap × Except String Unit :=
  match alGet st name with
  | some _ => (alErase st name, Except.ok ())
  | none => (st, Except.error (notFoundMsg name))

/-- `pat` is a leading segment of the second list (char-by-char). -/
def listLeadEq : List Char → List Char → Bool
  | [], _ => true
  | _ :: _, [] => false
  | a :: as, b :: bs => a == b && listLeadEq as bs

/-- `pat` occurs as a contiguous run somewhere in `hay`. -/
def charsContain : List Char → List Char → Bool
  | [], pat => listLeadEq pat []
  | h :: t, pat => listLeadEq pat (h :: t) || charsContain t pat

/-- Rust `String::contains` with a string pattern: case-sensitive substring
search (the empty pattern is always contained). -/
def strContains (s pat : String) : Bool :=
  charsContain s.data pat.data

/-- `serde_json::Value`, with numbers carried as rationals. -/
inductive Json where
  | null
  | jbool (b : Bool)
  | num (q : Rat)
  | str (s : String)
  | arr (elems : List Json)
  | obj (fields : List (String × Json))
  deriving Repr

/-- First field with the given key in a JSON object body. -/
def findField : List (String × Json) → String → Option Json
  | [], _ => none
  | (k, v) :: t, key => if k == key then some v else findField t key

/-- `value["key"]` (immutable `Index` on `Value`): the field, or `Null` when
the field is missing or the value is not an object. -/
def Json.getField (j : Json) (key : String) : Json :=
  match j with
  | .obj fields => (findField fields key).getD .null
  | _ => .null

/-- `value.get("key")`: `Some` field of an object, `None` otherwise. -/
def Json.getOpt (j : Json) (key : String) : Option Json :=
  match j with
  | .obj fields => findField fields key
  | _ => none

/-- `value[i]` (immutable `Index` on `Value`): the array element, or `Null`
when out of bounds or not an array. -/
def Json.getIdx (j : Json) (i : Nat) : Json :=
  match j with
  | .arr elems => (elems.get? i).getD .null
  | _ => .null

/-- `Value::as_str`. -/
def Json.asStr : Json → Option String
  | .str s => some s
  | _ => none

/-- `Value::as_u64`: succeeds exactly on integral numbers in `u64` range. -/
def Json.asU64 : Json → Option Nat
  | .num q => if q.den = 1 ∧ 0 ≤ q.num ∧ q.num < 2 ^ 64 then some q.num.toNat else none
  | _ => none

/-- The Rust `as u32` cast on a `u64` value: truncation modulo `2 ^ 32`. -/
def toU32 (n : Nat) : Nat := n % 2 ^ 32

/-- `LlmMessage` of `secrets.rs`. -/
structure LlmMessage where
  role : String
  content : String
  deriving Repr, DecidableEq

/-- `LlmUsage` of `secrets.rs` (`u32` fields as naturals below `2 ^ 32`). -/
structure LlmUsage where
  input_tokens : Nat
  output_tokens : Nat
  total_tokens : Nat
  deriving Repr, DecidableEq

/-- `LlmResponse` of `secrets.rs`: the normalized completion response. -/
structure LlmResponse where
  content : String
  usage : Option LlmUsage
  deriving Repr, DecidableEq

/-- `LlmRequest` of `secrets.rs` (`temperature: Option<f32>` modelled with
rational values; only pass-through facts are stated about it). -/
structure LlmRequest where
  model : String
  messages : List LlmMessage
  max_tokens : Option Nat
  temperature : Option Rat

/-- serde serialization of `Vec<LlmMessage>`. -/
def jsonOfMessages (ms : List LlmMessage) : Json :=
  Json.arr (ms.map (fun m => Json.obj [("role", Json.str m.role), ("content", Json.str m.content)]))

/-- serde serialization of `Option<u32>`: `None` becomes `null`. -/
def jsonOfOptNat : Option Nat → Json
  | none => Json.null
  | some n => Json.num (n : Rat)

/-- serde serialization of `Option<f32>`: `None` becomes `null`. -/
def jsonOfOptRat : Option Rat → Json
  | none => Json.null
  | some q => Json.num q

/-- An outbound HTTP request issued by an adapter. -/
structure ProviderCall where
  url : String
  headers : List (String × String)
  body : Json
  deriving Repr

/-- Response handed back by the transport: status plus the results of
`.text()` (with `None` for an unreadable body) and `.json()`. -/
structure HttpResponse where
  status : Nat
  textRes : Option String
  jsonRes : Except String Json

/-- `reqwest::StatusCode::is_success`: 200 ≤ status ≤ 299. -/
def statusIsSuccess (s : Nat) : Bool :=
  decide (200 ≤ s) && decide (s < 300)

/-- The transport: `Except.error` is a failure of `.send()`. -/
abbrev Net := ProviderCall → Except String HttpResponse

/-- The `serde_json::json!` body built by `call_anthropic_api`:
`max_tokens` defaults to 1000 via `unwrap_or(1000)`. -/
def anthropicRequestBody (request : LlmRequest) : Json :=
  Json.obj [("model", Json.str request.model),
            ("max_tokens", Json.num ((request.max_tokens.getD 1000 : Nat) : Rat)),
            ("messages", jsonOfMessages request.messages)]

/-- The `serde_json::json!` body built by `call_openai_api`: `max_tokens`
and `temperature` pass through unchanged (absent options serialize to
`null`). -/
def openaiRequestBody (request : LlmRequest) : Json :=
  Json.obj [("model", Json.str request.model),
            ("messages", jsonOfMessages request.messages),
            ("max_tokens", jsonOfOptNat request.max_tokens),
            ("temperature", jsonOfOptRat request.temperature)]

/-- `call_anthropic_api`: build the request, send it, map the response;
also returns the list of network calls issued. -/
def call_anthropic_api (net : Net) (api_key : String) (request : LlmRequest) :
    Except String LlmResponse × List ProviderCall :=
  let call : ProviderCall :=
    { url := "https://api.anthropic.com/v1/messages"
      headers := [("x-api-key", api_key), ("anthropic-version", "2023-06-01"),
                  ("Content-Type", "application/json")]
      body := anthropicRequestBody request }
  match net call with
  | Except.error e => (Except.error ("Failed to send request: " ++ e), [call])
  | Except.ok response =>
    if !statusIsSuccess response.status then
      (Except.error ("API error: " ++ response.textRes.getD "Unknown error"), [call])
    else
      match response.jsonRes with
      | Except.error e => (Except.error ("Failed to parse response: " ++ e), [call])
      | Except.ok response_json =>
        match (((response_json.getField "content").getIdx 0).getField "text").asStr with
        | none => (Except.error "No content in response", [call])
        | some content =>
          let usage : Option LlmUsage :=
            match response_json.getOpt "usage" with
            | some usage_obj =>
              some { input_tokens := toU32 (((usage_obj.getField "input_tokens").asU64).getD 0)
                     output_tokens := toU32 (((usage_obj.getField "output_tokens").asU64).getD 0)
                     total_tokens := toU32 (((usage_obj.getField "total_tokens").asU64).getD 0) }
            | none => none
          (Except.ok { content := content, usage := usage }, [call])

/-- `call_openai_api`: build the request, send it, map the response; also
returns the list of network calls issued. -/
def call_openai_api (net : Net) (api_key : String) (request : LlmRequest) :
    Except String LlmResponse × List ProviderCall :=
  let call : ProviderCall :=
    { url := "https://api.openai.com/v1/chat/completions"
      headers := [("Authorization", "Bearer " ++ api_key), ("Content-Type", "application/json")]
      body := openaiRequestBody request }
  match net call with
  | Except.error e => (Except.error ("Failed to send request: " ++ e), [call])
  | Except.ok response =>
    if !statusIsSuccess response.status then
      (Except.error ("API error: " ++ response.textRes.getD "Unknown error"), [call])
    else
      match response.jsonRes with
      | Except.error e => (Except.error ("Failed to parse response: " ++ e), [call])
      | Except.ok response_json =>
        match ((((response_json.getField "choices").getIdx 0).getField "message").getField "content").asStr with
        | none => (Except.error "No content in response", [call])
        | some content =>
          let usage : Option LlmUsage :=
            match response_json.getOpt "usage" with
            | some usage_obj =>
              some { input_tokens := toU32 (((usage_obj.getField "prompt_tokens").asU64).getD 0)
                     output_tokens := toU32 (((usage_obj.getField "completion_tokens").asU64).getD 0)
                     total_tokens := toU32 (((usage_obj.getField "total_tokens").asU64).getD 0) }
            | none => none
          (Except.ok { content := content, usage := usage }, [call])

/-- The `api_key_name` selection at the top of `call_llm_api`: the
case-sensitive substring checks in their tie-break order. -/
def apiKeyNameFor (model : String) : Option String :=
  if strContains model "claude" || strContains model "anthropic" then
    some "anthropic_api_key"
  else if strContains model "gpt" || strContains model "openai" then
    some "openai_api_key"
  else
    none

/-- `call_llm_api`: classify the model, fetch the key (propagating the
store error via `?`), build the request, classify again to pick the
adapter.  Returns the updated vault state, the result, and the network
calls issued. -/
def call_llm_api (net : Net) (st : SecretsMap) (now : Nat) (model : String)
    (messages : List LlmMessage) (max_tokens : Option Nat) (temperature : Option Rat) :
    SecretsMap × Except String LlmResponse × List ProviderCall :=
  match apiKeyNameFor model with
  | none => (st, Except.error "Unsupported model type", [])
  | some api_key_name =>
    match get_secret st api_key_name now with
    | (st1, Except.error e) => (st1, Except.error e, [])
    | (st1, Except.ok api_key) =>
      let request : LlmRequest :=
        { model := model, messages := messages, max_tokens := max_tokens,
          temperature := temperature }
      if strContains model "claude" || strContains model "anthropic" then
        let r := call_anthropic_api net api_key request
        (st1, r.1, r.2)
      else if strContains model "gpt" || strContains model "openai" then
        let r := call_openai_api net api_key request
        (st1, r.1, r.2)
      else
        (st1, Except.error "Unsupported model type", [])

/-- Single-classification variant of `call_llm_api`, written from the
claim's reading of the code: the model is classified once and the adapter
is chosen from the derived secret name, with no second unsupported-model
branch.  Compared against `call_llm_api` for the consistency claim. -/
def call_llm_api_keyed (net : Net) (st : SecretsMap) (now : Nat) (model : String)
    (messages : List LlmMessage) (max_tokens : Option Nat) (temperature : Option Rat) :
    SecretsMap × Except String LlmResponse × List ProviderCall :=
  match apiKeyNameFor model with
  | none => (st, Except.error "Unsupported model type", [])
  | some api_key_name =>
    match get_secret st api_key_name now with
    | (st1, Except.error e) => (st1, Except.error e, [])
    | (st1, Except.ok api_key) =>
      let request : LlmRequest :=
        { model := model, messages := messages, max_tokens := max_tokens,
          temperature := temperature }
      if api_key_name == "anthropic_api_key" then
        let r := call_anthropic_api net api_key request
        (st1, r.1, r.2)
      else
        let r := call_openai_api net api_key request
        (st1, r.1, r.2)

/-- A vault holding both provider keys, for the concrete dispatch tests. -/
def stKeys : SecretsMap :=
  [("anthropic_api_key", { value := "akey", created_at := 0, last_accessed := none }),
   ("openai_api_key", { value := "okey", created_at := 0, last_accessed := none })]

/-- A transport that answers every call with status 200 and the given JSON
body. -/
def netOK (body : Json) : Net :=
  fun _ => Except.ok { status := 200, textRes := some "", jsonRes := Except.ok body }

/-- A transport that answers every call with status 500 and body `oops`. -/
def net500 : Net :=
  fun _ => Except.ok { status := 500, textRes := some "oops", jsonRes := Except.error "ignored" }

/-- Mocked Anthropic success body with content and full usage. -/
def anthBodyFull : Json :=
  Json.obj [("content", Json.arr [Json.obj [("text", Json.str "hi")]]),
            ("usage", Json.obj [("input_tokens", Json.num 3), ("output_tokens", Json.num 2),
                                ("total_tokens", Json.num 5)])]

/-- Mocked Anthropic success body with content and no `usage` key. -/
def anthBodyNoUsage : Json :=
  Json.obj [("content", Json.arr [Json.obj [("text", Json.str "hi")]])]

/-- Mocked Anthropic success body whose content path is absent. -/
def anthBodyNoContent : Json :=
  Json.obj [("usage", Json.obj [("input_tokens", Json.num 3), ("output_tokens", Json.num 2),
                                ("total_tokens", Json.num 5)])]

/-- Mocked Anthropic success body whose usage object misses two numeric
fields. -/
def anthBodyPartialUsage : Json :=
  Json.obj [("content", Json.arr [Json.obj [("text", Json.str "hi")]]),
            ("usage", Json.obj [("input_tokens", Json.num 3)])]

/-- Mocked OpenAI success body with content and full usage. -/
def openaiBodyFull : Json :=
  Json.obj [("choices", Json.arr [Json.obj [("message", Json.obj [("content", Json.str "hi")])]]),
            ("usage", Json.obj [("prompt_tokens", Json.num 3), ("completion_tokens", Json.num 2),
                                ("total_tokens", Json.num 5)])]

/-- Mocked OpenAI success body whose content path is absent. -/
def openaiBodyNoContent : Json :=
  Json.obj [("usage", Json.obj [("prompt_tokens", Json.num 3), ("completion_tokens", Json.num 2),
                                ("total_tokens", Json.num 5)])]

/-- Mocked OpenAI success body whose usage object misses two numeric
fields. -/
def openaiBodyPartialUsage : Json :=
  Json.obj [("choices", Json.arr [Json.obj [("message", Json.obj [("content", Json.str "hi")])]]),
            ("usage", Json.obj [("prompt_tokens", Json.num 3)])]

/-! ### Helper lemmas about the association-list vault -/

/-- Looking up a key right after inserting it yields the inserted record. -/
lemma alGet_alInsert_self (st : SecretsMap) (k : String) (d : SecretData) :
    alGet (alInsert st k d) k = some d := by
  induction st with
  | nil => simp [alInsert, alGet]
  | cons hd t ih =>
    obtain ⟨k1, d1⟩ := hd
    by_cases h : k1 == k
    · simp [alInsert, alGet, h]
    · simp only [alInsert, h, Bool.false_eq_true, if_false, alGet, ih]

/-- Looking up a key right after erasing it fails. -/
lemma alGet_alErase_self (st : SecretsMap) (k : String) :
    alGet (alErase st k) k = none := by
  induction st with
  | nil => simp [alErase, alGet]
  | cons hd t ih =>
    obtain ⟨k1, d1⟩ := hd
    by_cases h : k1 == k
    · simp [alErase, h, ih]
    · simp only [alErase, h, Bool.false_eq_true, if_false, alGet, ih]

/-! ### Claim theorems -/

/-- C1: classification follows the tie-break order — `claude`/`anthropic`
selects `anthropic_api_key`; otherwise `gpt`/`openai` selects
`openai_api_key`; otherwise classification fails (UnsupportedModel); and the
five concrete examples behave as stated. -/
theorem model_classification (model : String) :
    ((strContains model "claude" = true ∨ strContains model "anthropic" = true) →
      apiKeyNameFor model = some "anthropic_api_key")
    ∧ (strContains model "claude" = false → strContains model "anthropic" = false →
        (strContains model "gpt" = true ∨ strContains model "openai" = true) →
        apiKeyNameFor model = some "openai_api_key")
    ∧ (strContains model "claude" = false → strContains model "anthropic" = false →
        strContains model "gpt" = false → strContains model "openai" = false →
        apiKeyNameFor model = none)
    ∧ apiKeyNameFor "claude-3-opus" = some "anthropic_api_key"
    ∧ apiKeyNameFor "anthropic-custom" = some "anthropic_api_key"
    ∧ apiKeyNameFor "gpt-4" = some "openai_api_key"
    ∧ apiKeyNameFor "openai-ft-x" = some "openai_api_key"
    ∧ apiKeyNameFor "llama-2" = none := by
  refine ⟨?_, ?_, ?_, by decide, by decide, by decide, by decide, by decide⟩
  · intro h
    rcases h with h | h <;> simp [apiKeyNameFor, h]
  · intro h1 h2 h3
    rcases h3 with h | h <;> simp [apiKeyNameFor, h1, h2, h]
  · intro h1 h2 h3 h4
    simp [apiKeyNameFor, h1, h2, h3, h4]

/-- C1 witness: the theorem applied at concrete models, hypotheses
discharged by computation. -/
theorem model_classification_wit :
    apiKeyNameFor "claude-3-opus" = some "anthropic_api_key"
    ∧ apiKeyNameFor "gpt-4" = some "openai_api_key"
    ∧ apiKeyNameFor "llama-2" = none :=
  ⟨(model_classification "claude-3-opus").1 (Or.inl (by decide)),
   (model_classification "gpt-4").2.1 (by decide) (by decide) (Or.inl (by decide)),
   (model_classification "llama-2").2.2.1 (by decide) (by decide) (by decide) (by decide)⟩

/-- C2 counterexample: classification is NOT case-insensitive — a model
containing `Claude` in mixed case fails classification instead of selecting
the Anthropic secret name. -/
theorem classification_not_case_insensitive :
    apiKeyNameFor "Claude-3-Opus" = none
    ∧ ¬ apiKeyNameFor "Claude-3-Opus" = some "anthropic_api_key" := by
  exact ⟨by decide, by decide⟩

/-- C2 amended: classification is case-sensitive — a provider is selected
only when one of the exact lowercase substrings `claude`, `anthropic`,
`gpt`, `openai` occurs in the model string; other casings fail. -/
theorem classification_case_sensitive (model : String) :
    ((apiKeyNameFor model).isSome = true →
      (strContains model "claude" || strContains model "anthropic"
        || strContains model "gpt" || strContains model "openai") = true)
    ∧ apiKeyNameFor "CLAUDE-3" = none
    ∧ apiKeyNameFor "Anthropic-X" = none
    ∧ apiKeyNameFor "GPT-4" = none
    ∧ apiKeyNameFor "OpenAI-x" = none
    ∧ apiKeyNameFor "gpt-4" = some "openai_api_key" := by
  refine ⟨?_, by decide, by decide, by decide, by decide, by decide⟩
  intro h
  by_cases h1 : strContains model "claude" <;>
    by_cases h2 : strContains model "anthropic" <;>
      by_cases h3 : strContains model "gpt" <;>
        by_cases h4 : strContains model "openai" <;>
          simp_all [apiKeyNameFor]

/-- C2 amended witness: the theorem applied at `gpt-4`. -/
theorem classification_case_sensitive_wit :
    (strContains "gpt-4" "claude" || strContains "gpt-4" "anthropic"
      || strContains "gpt-4" "gpt" || strContains "gpt-4" "openai") = true :=
  (classification_case_sensitive "gpt-4").1 (by decide)

/-- C6: a `get` immediately after `store(name, v)` returns `v` and stamps
`last_accessed` with a non-none timestamp; a `get` for a name with no
record fails with the not-found error and leaves the map unchanged. -/
theorem get_after_store (st : SecretsMap) (name v : String) (t1 t2 : Nat) :
    ((get_secret (store_secret st name v t1).1 name t2).2 = Except.ok v
     ∧ alGet ((get_secret (store_secret st name v t1).1 name t2).1) name
         = some { value := v, created_at := t1, last_accessed := some t2 })
    ∧ (∀ name2 t, alGet st name2 = none →
        get_secret st name2 t = (st, Except.error (notFoundMsg name2))) := by
  refine ⟨⟨?_, ?_⟩, ?_⟩
  · simp [store_secret, get_secret, alGet_alInsert_self]
  · simp [store_secret, get_secret, alGet_alInsert_self]
  · intro name2 t h
    simp [get_secret, h]

/-- C6 witness: the theorem at a concrete store/get sequence and at a
concrete absent name. -/
theorem get_after_store_wit :
    (get_secret (store_secret [] "k" "v" 5).1 "k" 7).2 = Except.ok "v"
    ∧ alGet ((get_secret (store_secret [] "k" "v" 5).1 "k" 7).1) "k"
        = some { value := "v", created_at := 5, last_accessed := some 7 }
    ∧ get_secret [] "absent" 3 = ([], Except.error (notFoundMsg "absent")) :=
  ⟨(get_after_store [] "k" "v" 5 7).1.1,
   (get_after_store [] "k" "v" 5 7).1.2,
   (get_after_store [] "k" "v" 5 7).2 "absent" 3 rfl⟩

/-- C7: a `get` after `remove(name)` fails with the not-found error; and a
`remove` of an absent name fails with the not-found error while leaving the
whole map unchanged. -/
theorem remove_then_get (st : SecretsMap) (name : String) (t : Nat) :
    (get_secret (remove_secret st name).1 name t).2 = Except.error (notFoundMsg name)
    ∧ (alGet st name = none →
        remove_secret st name = (st, Except.error (notFoundMsg name))) := by
  constructor
  · cases h : alGet st name with
    | some d => simp [remove_secret, h, get_secret, alGet_alErase_self]
    | none => simp [remove_secret, h, get_secret]
  · intro h
    simp [remove_secret, h]

/-- C7 witness: the theorem at a one-entry map and at the empty map. -/
theorem remove_then_get_wit :
    (get_secret (remove_secret [("k", { value := "v", created_at := 0, last_accessed := none })] "k").1 "k" 2).2
      = Except.error (notFoundMsg "k")
    ∧ remove_secret ([] : SecretsMap) "k" = ([], Except.error (notFoundMsg "k")) :=
  ⟨(remove_then_get [("k", { value := "v", created_at := 0, last_accessed := none })] "k" 2).1,
   (remove_then_get [] "k" 2).2 rfl⟩

/-- C3: dispatch short-circuits — when classification fails, the result is
the unsupported-model error with the vault untouched and zero network
calls; when classification succeeds but the derived secret name is absent,
the result is the not-found error, again with the vault untouched and zero
network calls. -/
theorem dispatch_short_circuit (net : Net) (st : SecretsMap) (now : Nat) (model : String)
    (messages : List LlmMessage) (mt : Option Nat) (temp : Option Rat) :
    (apiKeyNameFor model = none →
      call_llm_api net st now model messages mt temp
        = (st, Except.error "Unsupported model type", []))
    ∧ (∀ kname, apiKeyNameFor model = some kname → alGet st kname = none →
      call_llm_api net st now model messages mt temp
        = (st, Except.error (notFoundMsg kname), [])) := by
  constructor
  · intro h
    simp [call_llm_api, h]
  · intro kname h1 h2
    simp [call_llm_api, h1, get_secret, h2]

/-- C3 witness: the theorem at an unclassifiable model and at a classifiable
model over the empty vault. -/
theorem dispatch_short_circuit_wit :
    call_llm_api (fun _ => Except.error "down") [] 0 "llama-2" [] none none
      = ([], Except.error "Unsupported model type", [])
    ∧ call_llm_api (fun _ => Except.error "down") [] 0 "gpt-4" [] none none
      = ([], Except.error (notFoundMsg "openai_api_key"), []) :=
  ⟨(dispatch_short_circuit (fun _ => Except.error "down") [] 0 "llama-2" [] none none).1 (by decide),
   (dispatch_short_circuit (fun _ => Except.error "down") [] 0 "gpt-4" [] none none).2
     "openai_api_key" (by decide) rfl⟩

/-- C4: adapter response normalization — the mocked Anthropic body yields
content `hi` with usage `(3,2,5)`; without the `usage` key the usage is
`none`; without the content path the call fails with the
no-content (MalformedResponse) error; the equivalent OpenAI body normalizes
to the same response; and a usage object missing numeric fields defaults
them to 0 in both adapters. -/
theorem adapter_normalization :
    (call_llm_api (netOK anthBodyFull) stKeys 1 "claude-3-opus" [] none none).2.1
      = Except.ok { content := "hi", usage := some { input_tokens := 3, output_tokens := 2, total_tokens := 5 } }
    ∧ (call_llm_api (netOK anthBodyNoUsage) stKeys 1 "claude-3-opus" [] none none).2.1
      = Except.ok { content := "hi", usage := none }
    ∧ (call_llm_api (netOK anthBodyNoContent) stKeys 1 "claude-3-opus" [] none none).2.1
      = Except.error "No content in response"
    ∧ (call_llm_api (netOK openaiBodyFull) stKeys 1 "gpt-4" [] none none).2.1
      = Except.ok { content := "hi", usage := some { input_tokens := 3, output_tokens := 2, total_tokens := 5 } }
    ∧ (call_llm_api (netOK openaiBodyNoContent) stKeys 1 "gpt-4" [] none none).2.1
      = Except.error "No content in response"
    ∧ (call_llm_api (netOK anthBodyPartialUsage) stKeys 1 "claude-3-opus" [] none none).2.1
      = Except.ok { content := "hi", usage := some { input_tokens := 3, output_tokens := 0, total_tokens := 0 } }
    ∧ (call_llm_api (netOK openaiBodyPartialUsage) stKeys 1 "gpt-4" [] none none).2.1
      = Except.ok { content := "hi", usage := some { input_tokens := 3, output_tokens := 0, total_tokens := 0 } } :=
  ⟨rfl, rfl, rfl, rfl, rfl, rfl, rfl⟩

/-- C5 counterexample: a 500 response with body `oops` makes dispatch fail
with exactly `API error: oops` — an error value that contains the response
body but neither the HTTP status nor the provider, contrary to the claim
that the error carries provider and status. -/
theorem upstream_error_cex :
    (call_llm_api net500 stKeys 1 "claude-3-opus" [] none none).2.1
      = Except.error "API error: oops"
    ∧ strContains "API error: oops" "500" = false
    ∧ strContains "API error: oops" "Anthropic" = false
    ∧ strContains "API error: oops" "anthropic" = false := by
  exact ⟨rfl, by decide, by decide, by decide⟩

/-- C5 amended: for every non-2xx status from either provider, dispatch
fails with the error `API error:` followed by the response body (or
`Unknown error` when the body is unreadable) and never returns a successful
response; the status code and provider are not part of the error value. -/
theorem upstream_error_amended (st : SecretsMap) (now : Nat) (model : String)
    (messages : List LlmMessage) (mt : Option Nat) (temp : Option Rat)
    (status : Nat) (bodyText : Option String) (jr : Except String Json)
    (kname : String) (d : SecretData) :
    apiKeyNameFor model = some kname → alGet st kname = some d →
    statusIsSuccess status = false →
    (call_llm_api (fun _ => Except.ok { status := status, textRes := bodyText, jsonRes := jr })
        st now model messages mt temp).2.1
      = Except.error ("API error: " ++ bodyText.getD "Unknown error") := by
  intro hclass hget hstatus
  by_cases ha : (strContains model "claude" || strContains model "anthropic") = true
  · simp [call_llm_api, hclass, get_secret, hget, ha, call_anthropic_api, hstatus]
  · by_cases hb : (strContains model "gpt" || strContains model "openai") = true
    · simp [call_llm_api, hclass, get_secret, hget, ha, hb, call_openai_api, hstatus]
    · exfalso
      simp [apiKeyNameFor, ha, hb] at hclass

/-- C5 amended witness: the theorem at a concrete 500 response through the
OpenAI path. -/
theorem upstream_error_amended_wit :
    (call_llm_api (fun _ => Except.ok { status := 500, textRes := some "oops", jsonRes := Except.error "x" })
        stKeys 1 "gpt-4" [] none none).2.1
      = Except.error ("API error: " ++ (some "oops").getD "Unknown error") :=
  upstream_error_amended stKeys 1 "gpt-4" [] none none 500 (some "oops") (Except.error "x")
    "openai_api_key" { value := "okey", created_at := 0, last_accessed := none }
    (by decide) (by decide) (by decide)

/-- C8: the Anthropic request body substitutes 1000 for an absent
`max_tokens` (and passes a present one through), while the OpenAI request
body passes `max_tokens` and `temperature` through unchanged with absent
options serialized as `null`; and the Anthropic adapter sends exactly this
body on its outbound call. -/
theorem request_max_tokens (model : String) (msgs : List LlmMessage)
    (mt : Option Nat) (temp : Option Rat) (n : Nat) :
    (anthropicRequestBody { model := model, messages := msgs, max_tokens := none, temperature := temp }).getField "max_tokens"
      = Json.num 1000
    ∧ (anthropicRequestBody { model := model, messages := msgs, max_tokens := some n, temperature := temp }).getField "max_tokens"
      = Json.num (n : Rat)
    ∧ (openaiRequestBody { model := model, messages := msgs, max_tokens := mt, temperature := temp }).getField "max_tokens"
      = jsonOfOptNat mt
    ∧ (openaiRequestBody { model := model, messages := msgs, max_tokens := none, temperature := temp }).getField "max_tokens"
      = Json.null
    ∧ (openaiRequestBody { model := model, messages := msgs, max_tokens := mt, temperature := temp }).getField "temperature"
      = jsonOfOptRat temp
    ∧ (openaiRequestBody { model := model, messages := msgs, max_tokens := mt, temperature := none }).getField "temperature"
      = Json.null
    ∧ (call_anthropic_api (fun _ => Except.error "down") "key"
        { model := model, messages := msgs, max_tokens := none, temperature := temp }).2
      = [{ url := "https://api.anthropic.com/v1/messages",
           headers := [("x-api-key", "key"), ("anthropic-version", "2023-06-01"),
                       ("Content-Type", "application/json")],
           body := anthropicRequestBody { model := model, messages := msgs, max_tokens := none, temperature := temp } }] :=
  ⟨rfl, rfl, rfl, rfl, rfl, rfl, rfl⟩

/-- C10: the two inline classification checks agree — `call_llm_api` equals
the single-classification variant that picks the adapter from the derived
secret name, so the second unsupported-model branch is unreachable and the
adapter invoked always matches the secret name that was looked up. -/
theorem dispatch_single_classification (net : Net) (st : SecretsMap) (now : Nat)
    (model : String) (messages : List LlmMessage) (mt : Option Nat) (temp : Option Rat) :
    call_llm_api net st now model messages mt temp
      = call_llm_api_keyed net st now model messages mt temp := by
  by_cases ha : (strContains model "claude" || strContains model "anthropic") = true
  · have ha2 : strContains model "claude" = true ∨ strContains model "anthropic" = true := by
      simpa using ha
    have hk : apiKeyNameFor model = some "anthropic_api_key" := by
      simp [apiKeyNameFor, ha]
    unfold call_llm_api call_llm_api_keyed
    rw [hk]
    dsimp only
    rcases hg : get_secret st "anthropic_api_key" now with ⟨st1, res⟩
    cases res with
    | error e => rfl
    | ok key => simp [ha2]
  · have han : ¬(strContains model "claude" = true ∨ strContains model "anthropic" = true) := by
      simpa using ha
    by_cases hb : (strContains model "gpt" || strContains model "openai") = true
    · have hb2 : strContains model "gpt" = true ∨ strContains model "openai" = true := by
        simpa using hb
      have hk : apiKeyNameFor model = some "openai_api_key" := by
        simp [apiKeyNameFor, ha, hb]
      unfold call_llm_api call_llm_api_keyed
      rw [hk]
      dsimp only
      rcases hg : get_secret st "openai_api_key" now with ⟨st1, res⟩
      cases res with
      | error e => rfl
      | ok key => simp [han, hb2]
    · have hk : apiKeyNameFor model = none := by
        simp [apiKeyNameFor, ha, hb]
      unfold call_llm_api call_llm_api_keyed
      rw [hk]

end LOS
